import Mathlib

/-!
# Verification of the ViT reimplementation (src/vit_reimplement.py)

A shallow embedding of the Vision-Transformer script: model construction and
its validation, the attention scale, the adaptive loss-scaling state machine
of the mixed-precision training loop, the top-level script's global-name
binding order, a shape-level semantics of the forward pass, and a value-level
semantics of the transformer computation graph over `ℚ` (with the scalar
special functions `exp`, `gelu`, `sqrt` passed as parameters, since their
floating-point versions are not rational).
-/

/-! ## Model configuration and construction-time validation -/

/-- The model configuration handed to `ViT.__init__`
(src/vit_reimplement.py line 96; the concrete values are lines 15-24). -/
structure ViTConfig where
  image_size : ℕ
  patch_size : ℕ
  num_classes : ℕ
  dim : ℕ
  depth : ℕ
  heads : ℕ
  mlp_dim : ℕ
  channels : ℕ
deriving Repr, DecidableEq

/-- Exceptions surfaced by the embedded Python fragments. -/
inductive PyError where
  | assertionError (msg : String)
  | zeroDivisionError
  | nameError (name : String)
deriving Repr, DecidableEq

namespace ViT

/-- Construction-time error behavior of the `ViT.__init__` chain
(src/vit_reimplement.py lines 96-119), in execution order.  First the
assert at line 98, `assert image_size % patch_size == 0` (Python's `%`
raises `ZeroDivisionError` when `patch_size = 0`).  The remaining
constructors (`Conv2d`, the parameters, `LayerNorm`, `Linear`) accept any
sizes; the only further fatal path is `Attention.__init__` line 59,
`self.scale = (dim // heads) ** -0.5`, reached once per block (lines
83-87), hence only when `depth ≥ 1`: `dim // 0` raises
`ZeroDivisionError`, and when the floor quotient `dim // heads` is 0
(that is, `heads > dim`) Python again raises `ZeroDivisionError`, since
`0` cannot be raised to a negative power.  In `ℕ` arithmetic both cases
are exactly `dim / heads = 0`.  There is no divisibility check of `dim`
by `heads` anywhere in the chain. -/
def initCheck (cfg : ViTConfig) : Except PyError Unit :=
  if cfg.patch_size = 0 then .error .zeroDivisionError
  else if cfg.image_size % cfg.patch_size = 0 then
    if 0 < cfg.depth ∧ cfg.dim / cfg.heads = 0 then .error .zeroDivisionError
    else .ok ()
  else .error (.assertionError "Image dimensions must be divisible by the patch size.")

end ViT

/-- A configuration whose `image_size` is divisible by `patch_size` but whose
`dim = 10` is not divisible by `heads = 3`. -/
def cfgHeadsBad : ViTConfig := ⟨32, 4, 10, 10, 6, 3, 1024, 3⟩

/-- The standard configuration of the script (lines 15-24, 164-174). -/
def stdCfg : ViTConfig := ⟨32, 4, 10, 512, 6, 8, 1024, 3⟩

/-! ## Attention scale (source line 59) -/

namespace Attention

/-- `self.scale = (dim // heads) ** -0.5` (src/vit_reimplement.py line 59):
Python floor division of the two integers, then a real power `-0.5`. -/
noncomputable def scale (dim heads : ℕ) : ℝ :=
  ((dim / heads : ℕ) : ℝ) ^ (-(1 / 2 : ℝ))

end Attention

/-! ## Adaptive loss scaling (mixed-precision training loop)

`train_one_epoch` (src/vit_reimplement.py lines 180-208) drives
`scaler.scale(loss).backward(); scaler.step(optimizer); scaler.update()`
(lines 197-199) where `scaler = GradScaler()` (line 265).  `GradScaler`
itself is external library code, so its per-step dynamics are modelled from
the spec (§4.8). -/

/-- Loss-scale state: the scalar multiplier and the consecutive-success
counter (spec §3, "Loss-scale state"). -/
structure ScalerState where
  scale : ℚ
  goodSteps : ℕ
deriving Repr, DecidableEq

/-- Modelled from the spec: the per-step loss-scale update of the `GradScaler`
used at source lines 197-199 (library code, not in src/).  Spec §4.8: on
overflow, halve the loss-scale factor and reset the consecutive-success
counter to 0; on success, increment the counter, and when it reaches
`threshold` double the loss-scale factor and reset the counter. -/
def scalerUpdate (threshold : ℕ) (st : ScalerState) (overflow : Bool) : ScalerState :=
  if overflow then ⟨st.scale / 2, 0⟩
  else if st.goodSteps + 1 = threshold then ⟨st.scale * 2, 0⟩
  else ⟨st.scale, st.goodSteps + 1⟩

/-- Modelled from the spec: one full training step (source lines 191-199 plus
the library `scaler.step`/`scaler.update`): the optimizer update `upd` is
applied to the parameters only when the step did not overflow (spec §4.8,
SKIP discards the step), and the loss-scale state advances by
`scalerUpdate`. -/
def trainStep {P : Type} (threshold : ℕ) (upd : P → P)
    (s : P × ScalerState) (overflow : Bool) : P × ScalerState :=
  (if overflow then s.1 else upd s.1, scalerUpdate threshold s.2 overflow)

/-- Run a sequence of training steps, each flagged with whether its unscaled
gradients contained a non-finite value. -/
def runTraining {P : Type} (threshold : ℕ) (upd : P → P)
    (s : P × ScalerState) (flags : List Bool) : P × ScalerState :=
  flags.foldl (trainStep threshold upd) s

/-! ## Top-level script execution order (NameError on `scaler`) -/

/-- A top-level statement of the script, restricted to what global-name
resolution needs: either a statement that binds a global name, or the
training loop, which dereferences a list of global names in order of first
use and (only if all of them resolve) completes parameter updates and metric
accumulations. -/
inductive ScriptStmt where
  | bind (name : String)
  | callTraining (uses : List String)
deriving Repr, DecidableEq

/-- First name of `uses` that is not bound in `env` (Python raises
`NameError` at the first unresolved global dereference). -/
def firstMissing (env : List String) : List String → Option String
  | [] => none
  | n :: rest => if n ∈ env then firstMissing env rest else some n

/-- Script execution state: the bound global names, and how many parameter
updates / metric accumulations have completed. -/
structure ExecState where
  env : List String
  parameterUpdates : ℕ
  metricAccumulations : ℕ
deriving Repr, DecidableEq

/-- Execute one top-level statement.  A `callTraining` statement raises
`NameError n` at the first global `n` it dereferences that is unbound;
only if every dereference resolves does it complete a parameter update
(source line 198 `scaler.step(optimizer)`) and a metric accumulation
(source lines 201-204, which run after the `scaler` lines). -/
def execStmt (s : ExecState) : ScriptStmt → Except PyError ExecState
  | .bind n => .ok ⟨n :: s.env, s.parameterUpdates, s.metricAccumulations⟩
  | .callTraining uses =>
    match firstMissing s.env uses with
    | some n => .error (.nameError n)
    | none => .ok ⟨s.env, s.parameterUpdates + 1, s.metricAccumulations + 1⟩

/-- Execute the script top to bottom, stopping at the first uncaught
exception and reporting the state reached at that point. -/
def execScript (s : ExecState) : List ScriptStmt → Option PyError × ExecState
  | [] => (none, s)
  | st :: rest =>
    match execStmt s st with
    | .error e => (some e, s)
    | .ok s' => execScript s' rest

/-- The top-level statement sequence of src/vit_reimplement.py, restricted to
the globals relevant to the first training step.  Binds, in source order:
the imports (lines 3-10), the constants (13-28), the five classes (32-138),
the data pipeline (142-160), `model`/`criterion`/`optimizer` (164-177) and
the two function defs (180, 211).  Line 238 then runs the epoch loop, whose
first iteration calls `train_one_epoch(0)`; its body dereferences, in order
of first use (lines 181-197): `model`, `trainloader`, `EPOCHS`, `tqdm`,
`DEVICE`, `optimizer`, `autocast`, `criterion`, `scaler`.  `scaler` is bound
only afterwards, at line 265 in the fine-tuning section. -/
def vitScript : List ScriptStmt := [
  .bind "torch", .bind "nn", .bind "optim", .bind "torchvision",
  .bind "transforms", .bind "DataLoader", .bind "tqdm",
  .bind "GradScaler", .bind "autocast",
  .bind "DEVICE", .bind "IMG_SIZE", .bind "PATCH_SIZE", .bind "NUM_CLASSES",
  .bind "DIM", .bind "DEPTH", .bind "HEADS", .bind "MLP_DIM",
  .bind "CHANNELS", .bind "DROPOUT", .bind "EMB_DROPOUT",
  .bind "LEARNING_RATE", .bind "BATCH_SIZE", .bind "EPOCHS",
  .bind "PreNorm", .bind "FeedForward", .bind "Attention",
  .bind "Transformer", .bind "ViT",
  .bind "transform_train", .bind "transform_test",
  .bind "trainset", .bind "trainloader", .bind "testset", .bind "testloader",
  .bind "model", .bind "criterion", .bind "optimizer",
  .bind "train_one_epoch", .bind "evaluate",
  .callTraining ["train_one_epoch", "model", "trainloader", "EPOCHS", "tqdm",
                 "DEVICE", "optimizer", "autocast", "criterion", "scaler"],
  .bind "timm",
  .bind "pretrained_imgSize", .bind "numClass",
  .bind "ft_learnRate", .bind "batch_size",
  .bind "scaler",
  .bind "embed_dim"]

/-! ## Shape-level semantics of the forward pass (src lines 105-138)

Shapes are lists of dimension sizes, outermost first; an operation returns
`none` exactly when the corresponding PyTorch call raises. -/

/-- A tensor shape, outermost dimension first. -/
abbrev Shape := List ℕ

/-- `num_patches = (image_size // patch_size) ** 2` (src line 99). -/
def numPatches (cfg : ViTConfig) : ℕ := (cfg.image_size / cfg.patch_size) ^ 2

/-- Shape rule of `nn.Conv2d(cin, cout, kernel_size=k, stride=s)` on a 4-D
input (src line 106 instantiates `k = s = patch_size`): the channel count
must match and the kernel must fit (PyTorch raises when the output spatial
size would be < 1); the output spatial sizes are `(h - k) / s + 1`
(floor division — inputs not divisible by the stride are accepted, the
remainder pixels are dropped). -/
def conv2dShape (cin cout k s : ℕ) : Shape → Option Shape
  | [b, c, h, w] =>
    if 0 < k ∧ 0 < s ∧ c = cin ∧ k ≤ h ∧ k ≤ w then
      some [b, cout, (h - k) / s + 1, (w - k) / s + 1]
    else none
  | _ => none

/-- Shape rule of `Tensor.flatten(2)` (src line 125): flattens dimensions 2
and onward into one; requires at least 3 dimensions. -/
def flatten2Shape : Shape → Option Shape
  | b :: c :: r :: rest => some [b, c, (r :: rest).prod]
  | _ => none

/-- Shape rule of `Tensor.transpose(1, 2)` (src line 126). -/
def transpose12Shape : Shape → Option Shape
  | b :: d1 :: d2 :: rest => some (b :: d2 :: d1 :: rest)
  | _ => none

/-- The patch-embedding stage: `self.to_patch_embedding` (Conv2d with
`kernel_size = stride = patch_size`, src lines 105-107) followed by
`flatten(2)` and `transpose(1, 2)` (src lines 124-126). -/
def patchEmbShape (channels dim patch : ℕ) (sh : Shape) : Option Shape :=
  (conv2dShape channels dim patch patch sh).bind fun s1 =>
    (flatten2Shape s1).bind transpose12Shape

/-- Prepending the class token (src lines 128-129): `cls_token` has shape
`[1, 1, dim]`, is expanded to `[b, 1, dim]`, and is concatenated with `x`
along dimension 1, which requires the other dimensions of `x` to match. -/
def catClsShape (dim : ℕ) : Shape → Option Shape
  | [b, n, d] => if d = dim then some [b, n + 1, d] else none
  | _ => none

/-- The in-place addition `x += self.pos_embedding` (src line 131), where
`pos_embedding` has shape `[1, numPatches + 1, dim]` (src line 109): an
in-place add requires the right operand to broadcast to the shape of `x`,
i.e. each of its dimensions must equal the corresponding dimension of `x`
or be 1. -/
def addPosShape (np dim : ℕ) : Shape → Option Shape
  | [b, t, d] =>
    if (np + 1 = t ∨ np + 1 = 1) ∧ (dim = d ∨ dim = 1) then some [b, t, d]
    else none
  | _ => none

/-- Shape rule of `nn.Linear(din, dout)`: the last dimension must equal
`din` and becomes `dout`. -/
def linearShape (din dout : ℕ) (sh : Shape) : Option Shape :=
  match sh.reverse with
  | d :: rest => if d = din then some ((dout :: rest).reverse) else none
  | [] => none

/-- Shape rule of `nn.LayerNorm(dim)`: the last dimension must equal `dim`;
the shape is preserved. -/
def layerNormShape (dim : ℕ) (sh : Shape) : Option Shape :=
  match sh.reverse with
  | d :: _ => if d = dim then some sh else none
  | [] => none

/-- Shape behavior of `Attention.forward` (src lines 67-77) on a 3-D input
`[b, n, d]`: `to_qkv` is `Linear(dim, 3*dim)`, so `d` must equal `dim`; the
`reshape(b, n, h, -1)` at line 70 infers the last dimension and raises
unless the known product `b*n*h` is positive and divides the element count
`b*n*dim`; the einsums, the softmax and the reshape back preserve the
shape, and `to_out` is `Linear(dim, dim)`. -/
def attentionShape (dim heads : ℕ) : Shape → Option Shape
  | [b, n, d] =>
    if d = dim ∧ 0 < b * n * heads ∧ b * n * dim % (b * n * heads) = 0 then
      some [b, n, dim]
    else none
  | _ => none

/-- Shape behavior of `FeedForward.forward` (src lines 41-53): `Linear(dim,
hidden)`, GELU and dropout (shape preserving), `Linear(hidden, dim)`,
dropout. -/
def feedForwardShape (dim hidden : ℕ) (sh : Shape) : Option Shape :=
  (linearShape dim hidden sh).bind (linearShape hidden dim)

/-- Out-of-place broadcast of two shapes aligned from the right (the
residual additions at src lines 90-91 use it on equal shapes). -/
def broadcastRev : List ℕ → List ℕ → Option (List ℕ)
  | [], ys => some ys
  | x :: xs, [] => some (x :: xs)
  | x :: xs, y :: ys =>
    if x = y ∨ x = 1 ∨ y = 1 then
      (broadcastRev xs ys).map fun r => max x y :: r
    else none

/-- Broadcast of two shapes (outermost-first lists). -/
def broadcastShape (a b : Shape) : Option Shape :=
  (broadcastRev a.reverse b.reverse).map List.reverse

/-- Shape behavior of one transformer block (src lines 88-91):
`x = attn(x) + x` then `x = ff(x) + x`, where `attn` and `ff` are `PreNorm`
wrappers (src lines 32-39) applying `nn.LayerNorm(dim)` before the
sub-layer. -/
def blockShape (dim heads hidden : ℕ) (sh : Shape) : Option Shape :=
  ((layerNormShape dim sh).bind (attentionShape dim heads)).bind fun a =>
    (broadcastShape a sh).bind fun x1 =>
      ((layerNormShape dim x1).bind (feedForwardShape dim hidden)).bind fun f =>
        broadcastShape f x1

/-- Shape behavior of the transformer stack (src lines 79-92): `depth`
sequential blocks. -/
def transformerShape (dim depth heads hidden : ℕ) (sh : Shape) : Option Shape :=
  (List.range depth).foldl (fun acc _ => acc.bind (blockShape dim heads hidden)) (some sh)

/-- `x[:, 0]` (src line 136): requires a 3-D input with a non-empty token
axis. -/
def selectClsShape : Shape → Option Shape
  | [b, t, d] => if 0 < t then some [b, d] else none
  | _ => none

/-- Shape-level semantics of the whole `ViT.forward` (src lines 121-138):
patch embedding, class-token concatenation, in-place positional-embedding
addition, embedding dropout (shape preserving), transformer stack,
class-token extraction, and the `mlp_head` (`LayerNorm(dim)` then
`Linear(dim, num_classes)`, src lines 116-119). -/
def vitForwardShape (cfg : ViTConfig) (sh : Shape) : Option Shape :=
  (patchEmbShape cfg.channels cfg.dim cfg.patch_size sh).bind fun t1 =>
    (catClsShape cfg.dim t1).bind fun t2 =>
      (addPosShape (numPatches cfg) cfg.dim t2).bind fun t3 =>
        (transformerShape cfg.dim cfg.depth cfg.heads cfg.mlp_dim t3).bind fun t4 =>
          (selectClsShape t4).bind fun t5 =>
            (layerNormShape cfg.dim t5).bind (linearShape cfg.dim cfg.num_classes)

/-! ## Value-level semantics of the transformer computation graph

Tensors are functions over `Fin`-index types with `ℚ` entries.  The scalar
special functions (`exp` inside softmax, the feed-forward GELU, LayerNorm's
square root) take irrational values in the source's floating-point runtime,
so they are passed as explicit `ℚ → ℚ` parameters bundled in `ScalarOps`;
likewise the Bernoulli draws of each dropout layer are passed as explicit
Boolean masks.  The embedding dimension is carried as `heads * dh` so that
the head split/merge of `Attention.forward` is total. -/

/-- A `[B, T, D]` tensor. -/
abbrev Tensor3 (B T D : ℕ) := Fin B → Fin T → Fin D → ℚ

/-- The scalar special functions of the floating-point runtime. -/
structure ScalarOps where
  exp : ℚ → ℚ
  gelu : ℚ → ℚ
  sqrt : ℚ → ℚ

/-- Elementwise dropout (`nn.Dropout(p)` in training mode): entries whose
mask bit fires are zeroed, the others are rescaled by `1 / (1 - p)`.  With
`p = 0` the Bernoulli(0) draws never fire and the layer is the identity. -/
def dropout3 {B T D : ℕ} (p : ℚ) (mask : Fin B → Fin T → Fin D → Bool)
    (x : Tensor3 B T D) : Tensor3 B T D :=
  fun b t d => if mask b t d then 0 else x b t d / (1 - p)

/-- Learned scale/shift of one `nn.LayerNorm(dim)` instance. -/
structure LayerNormP (D : ℕ) where
  weight : Fin D → ℚ
  bias : Fin D → ℚ

/-- `nn.LayerNorm` over the last axis: subtract the mean, divide by
`sqrt (variance + eps)` (biased variance), apply the learned affine map. -/
def layerNormVec {D : ℕ} (ops : ScalarOps) (eps : ℚ) (p : LayerNormP D)
    (v : Fin D → ℚ) : Fin D → ℚ :=
  fun d =>
    p.weight d *
        ((v d - (∑ i, v i) / (D : ℚ)) /
          ops.sqrt ((∑ i, (v i - (∑ j, v j) / (D : ℚ)) ^ 2) / (D : ℚ) + eps)) +
      p.bias d

/-- `nn.LayerNorm(dim)` applied to every `[b, t]` row of a 3-D tensor. -/
def layerNorm3 {B T D : ℕ} (ops : ScalarOps) (eps : ℚ) (p : LayerNormP D)
    (x : Tensor3 B T D) : Tensor3 B T D :=
  fun b t => layerNormVec ops eps p (x b t)

/-- `nn.Linear(din, dout)` along the last axis (PyTorch stores the weight as
`[dout, din]`): `y = x Wᵗ + bias`. -/
def linear3 {B T din dout : ℕ} (W : Fin dout → Fin din → ℚ)
    (bias : Fin dout → ℚ) (x : Tensor3 B T din) : Tensor3 B T dout :=
  fun b t o => (∑ c, W o c * x b t c) + bias o

/-- Row-major pairing of an index pair into a flat index, as produced by
`reshape` (and by the row-major patch grid): `(i, j) ↦ i * n + j`. -/
def flatIdx {m n : ℕ} (i : Fin m) (j : Fin n) : Fin (m * n) :=
  ⟨i.val * n + j.val, by
    calc i.val * n + j.val < i.val * n + n := by omega
    _ = (i.val + 1) * n := by ring
    _ ≤ m * n := Nat.mul_le_mul_right n i.isLt⟩

/-- High component of the row-major split of a flat index: `c / n`. -/
def idxHi {m n : ℕ} (c : Fin (m * n)) : Fin m :=
  ⟨c.val / n, by
    rcases Nat.eq_zero_or_pos n with h0 | h0
    · exact absurd c.isLt (by simp [h0])
    · exact (Nat.div_lt_iff_lt_mul h0).mpr c.isLt⟩

/-- Low component of the row-major split of a flat index: `c % n`. -/
def idxLo {m n : ℕ} (c : Fin (m * n)) : Fin n :=
  ⟨c.val % n, by
    rcases Nat.eq_zero_or_pos n with h0 | h0
    · exact absurd c.isLt (by simp [h0])
    · exact Nat.mod_lt _ h0⟩

/-- Row index of the query slice of the `to_qkv` output. -/
def qIdx {n : ℕ} (r : Fin n) : Fin (3 * n) :=
  ⟨r.val, by have h := r.isLt; omega⟩

/-- Row index of the key slice of the `to_qkv` output. -/
def kIdx {n : ℕ} (r : Fin n) : Fin (3 * n) :=
  ⟨n + r.val, by have h := r.isLt; omega⟩

/-- Row index of the value slice of the `to_qkv` output. -/
def vIdx {n : ℕ} (r : Fin n) : Fin (3 * n) :=
  ⟨2 * n + r.val, by have h := r.isLt; omega⟩

/-- Softmax over one row (`dots.softmax(dim=-1)`, src line 73), with the
runtime's exponential passed as `e`. -/
def softmaxRow {T : ℕ} (e : ℚ → ℚ) (row : Fin T → ℚ) : Fin T → ℚ :=
  fun j => e (row j) / ∑ k, e (row k)

/-- Parameters of `Attention` (src lines 55-65) for `heads` heads of
per-head dimension `dh` (embedding dimension `dim = heads * dh`): the
combined query/key/value projection `to_qkv = Linear(dim, dim * 3)` with no
bias (line 61), and the output projection `to_out = Linear(dim, dim)` with
bias followed by dropout (lines 62-65). -/
structure AttentionP (heads dh : ℕ) where
  toQkv : Fin (3 * (heads * dh)) → Fin (heads * dh) → ℚ
  toOutW : Fin (heads * dh) → Fin (heads * dh) → ℚ
  toOutB : Fin (heads * dh) → ℚ

namespace Attention

/-- The per-head query tensor (src lines 69-70: `to_qkv` output chunked,
reshaped to `[b, n, h, dh]`, transposed to `[b, h, n, dh]`). -/
def q {B T heads dh : ℕ} (p : AttentionP heads dh)
    (x : Tensor3 B T (heads * dh)) : Fin B → Fin heads → Fin T → Fin dh → ℚ :=
  fun b h t d => ∑ c, p.toQkv (qIdx (flatIdx h d)) c * x b t c

/-- The per-head key tensor (src lines 69-70). -/
def k {B T heads dh : ℕ} (p : AttentionP heads dh)
    (x : Tensor3 B T (heads * dh)) : Fin B → Fin heads → Fin T → Fin dh → ℚ :=
  fun b h t d => ∑ c, p.toQkv (kIdx (flatIdx h d)) c * x b t c

/-- The per-head value tensor (src lines 69-70). -/
def v {B T heads dh : ℕ} (p : AttentionP heads dh)
    (x : Tensor3 B T (heads * dh)) : Fin B → Fin heads → Fin T → Fin dh → ℚ :=
  fun b h t d => ∑ c, p.toQkv (vIdx (flatIdx h d)) c * x b t c

/-- `dots = einsum('bhid,bhjd->bhij', q, k) * self.scale` (src line 72);
the floating-point value of `self.scale` is passed as a parameter (its
exact value is `Attention.scale`, treated separately). -/
def dots {B T heads dh : ℕ} (scale : ℚ) (p : AttentionP heads dh)
    (x : Tensor3 B T (heads * dh)) : Fin B → Fin heads → Fin T → Fin T → ℚ :=
  fun b h i j => (∑ d, q p x b h i d * k p x b h j d) * scale

/-- `attn = dots.softmax(dim=-1)` (src line 73). -/
def attnProbs {B T heads dh : ℕ} (e : ℚ → ℚ) (scale : ℚ)
    (p : AttentionP heads dh) (x : Tensor3 B T (heads * dh)) :
    Fin B → Fin heads → Fin T → Fin T → ℚ :=
  fun b h i => softmaxRow e (dots scale p x b h i)

/-- `Attention.forward` (src lines 67-77): the attention-weighted values
(`einsum('bhij,bhjd->bhid')`, line 75), heads merged back by
`transpose(1, 2).reshape(b, n, -1)` (line 76), then `to_out`: a linear
projection plus dropout (line 77, module built at lines 62-65). -/
def forward {B T heads dh : ℕ} (e : ℚ → ℚ) (scale pdrop : ℚ)
    (mask : Fin B → Fin T → Fin (heads * dh) → Bool) (p : AttentionP heads dh)
    (x : Tensor3 B T (heads * dh)) : Tensor3 B T (heads * dh) :=
  dropout3 pdrop mask
    (linear3 p.toOutW p.toOutB
      (fun b t c =>
        ∑ j, attnProbs e scale p x b (idxHi c) t j * v p x b (idxHi c) j (idxLo c)))

end Attention

/-- Parameters of `FeedForward` (src lines 41-53): `Linear(dim, hidden)`,
GELU, dropout, `Linear(hidden, dim)`, dropout. -/
structure FeedForwardP (D M : ℕ) where
  w1 : Fin M → Fin D → ℚ
  b1 : Fin M → ℚ
  w2 : Fin D → Fin M → ℚ
  b2 : Fin D → ℚ

namespace FeedForward

/-- `FeedForward.forward` (src lines 52-53 running the `nn.Sequential` of
lines 44-50), with the runtime GELU passed as `g` and the two dropout draws
as masks. -/
def forward {B T D M : ℕ} (g : ℚ → ℚ) (pdrop : ℚ)
    (mask1 : Fin B → Fin T → Fin M → Bool) (mask2 : Fin B → Fin T → Fin D → Bool)
    (p : FeedForwardP D M) (x : Tensor3 B T D) : Tensor3 B T D :=
  dropout3 pdrop mask2
    (linear3 p.w2 p.b2
      (dropout3 pdrop mask1 (fun b t m => g (linear3 p.w1 p.b1 x b t m))))

end FeedForward

/-- One transformer block: the `PreNorm`-wrapped `Attention` and the
`PreNorm`-wrapped `FeedForward` appended per depth iteration (src lines
83-87).  Each `PreNorm` wrapper owns its own `nn.LayerNorm(dim)` (src lines
32-36), so each block has two private LayerNorm parameter sets. -/
structure BlockP (heads dh M : ℕ) where
  attnNorm : LayerNormP (heads * dh)
  attn : AttentionP heads dh
  ffNorm : LayerNormP (heads * dh)
  ff : FeedForwardP (heads * dh) M

/-- The dropout draws consumed by one block in one forward pass. -/
structure BlockNoise (B T heads dh M : ℕ) where
  attnOut : Fin B → Fin T → Fin (heads * dh) → Bool
  ffMid : Fin B → Fin T → Fin M → Bool
  ffOut : Fin B → Fin T → Fin (heads * dh) → Bool

/-- One block step of `Transformer.forward` (src lines 90-91):
`x = attn(x) + x` then `x = ff(x) + x`, where each wrapped sub-layer first
applies its own LayerNorm to its input (`PreNorm.forward`, src lines
38-39). -/
def blockForward {B T heads dh M : ℕ} (ops : ScalarOps) (eps scale pdrop : ℚ)
    (bp : BlockP heads dh M) (nz : BlockNoise B T heads dh M)
    (x : Tensor3 B T (heads * dh)) : Tensor3 B T (heads * dh) :=
  FeedForward.forward ops.gelu pdrop nz.ffMid nz.ffOut bp.ff
      (layerNorm3 ops eps bp.ffNorm
        (Attention.forward ops.exp scale pdrop nz.attnOut bp.attn
            (layerNorm3 ops eps bp.attnNorm x) + x)) +
    (Attention.forward ops.exp scale pdrop nz.attnOut bp.attn
        (layerNorm3 ops eps bp.attnNorm x) + x)

namespace Transformer

/-- `Transformer.forward` (src lines 88-92): the blocks applied in order. -/
def forward {B T heads dh M L : ℕ} (ops : ScalarOps) (eps scale pdrop : ℚ)
    (layers : Fin L → BlockP heads dh M) (nz : Fin L → BlockNoise B T heads dh M)
    (x : Tensor3 B T (heads * dh)) : Tensor3 B T (heads * dh) :=
  (List.finRange L).foldl
    (fun acc i => blockForward ops eps scale pdrop (layers i) (nz i) acc) x

end Transformer

/-- All learnable state and stored attributes of a `ViT` instance
(src lines 96-119), indexed by channel count `C`, patch size `P`, patch grid
`gh x gw`, head layout `heads x dh` (embedding dimension `heads * dh`),
feed-forward hidden width `M`, class count `K` and depth `L`.  `patch_size`
and `dim` are the plain attributes stored at lines 102-103. -/
structure ViTP (C P gh gw heads dh M K L : ℕ) where
  patch_size : ℕ
  dim : ℕ
  convW : Fin (heads * dh) → Fin C → Fin P → Fin P → ℚ
  convB : Fin (heads * dh) → ℚ
  pos_embedding : Fin (gh * gw + 1) → Fin (heads * dh) → ℚ
  cls_token : Fin (heads * dh) → ℚ
  blocks : Fin L → BlockP heads dh M
  headNorm : LayerNormP (heads * dh)
  headW : Fin K → Fin (heads * dh) → ℚ
  headB : Fin K → ℚ

/-- The dropout draws consumed by one whole forward pass: the embedding
dropout (src line 132) and each block's draws. -/
structure ViTNoise (B T heads dh M L : ℕ) where
  emb : Fin B → Fin T → Fin (heads * dh) → Bool
  blocks : Fin L → BlockNoise B T heads dh M

namespace ViT

/-- The patch-embedding stage (src lines 105-107 applied at 124-126): the
strided convolution with `kernel = stride = P`, flattened and transposed to
`[B, gh * gw, dim]`; token `t` sits at grid position `(t / gw, t % gw)`
(row-major) and covers input pixels `(i * P + pi, j * P + pj)`. -/
def patchTokens {B C P gh gw heads dh M K L : ℕ} (m : ViTP C P gh gw heads dh M K L)
    (img : Fin B → Fin C → Fin (gh * P) → Fin (gw * P) → ℚ) :
    Tensor3 B (gh * gw) (heads * dh) :=
  fun b t d =>
    m.convB d +
      ∑ c, ∑ pi, ∑ pj,
        m.convW d c pi pj * img b c (flatIdx (idxHi t) pi) (flatIdx (idxLo t) pj)

/-- Prepending the class token (src lines 128-129): index 0 is the class
token, indices `1..N` the patch tokens in row-major order. -/
def withCls {B N D : ℕ} (cls : Fin D → ℚ) (tok : Tensor3 B N D) :
    Tensor3 B (N + 1) D :=
  fun b t d =>
    match t with
    | ⟨0, _⟩ => cls d
    | ⟨n + 1, h⟩ => tok b ⟨n, Nat.lt_of_succ_lt_succ h⟩ d

/-- The embedding stage of `ViT.forward` (src lines 124-131): patch tokens,
class token, positional embedding added elementwise. -/
def embed {B C P gh gw heads dh M K L : ℕ} (m : ViTP C P gh gw heads dh M K L)
    (img : Fin B → Fin C → Fin (gh * P) → Fin (gw * P) → ℚ) :
    Tensor3 B (gh * gw + 1) (heads * dh) :=
  fun b t d => withCls m.cls_token (patchTokens m img) b t d + m.pos_embedding t d

/-- The classification head (src lines 136-138 with the `mlp_head` of lines
116-119): extract token 0, LayerNorm, linear projection to logits
(`to_latent` at line 115 is `nn.Identity`). -/
def head {B gh gw heads dh K : ℕ} (ops : ScalarOps) (eps : ℚ)
    (headNorm : LayerNormP (heads * dh)) (headW : Fin K → Fin (heads * dh) → ℚ)
    (headB : Fin K → ℚ) (x : Tensor3 B (gh * gw + 1) (heads * dh)) :
    Fin B → Fin K → ℚ :=
  fun b o =>
    (∑ c, headW o c * layerNormVec ops eps headNorm (fun d => x b ⟨0, Nat.succ_pos _⟩ d) c) +
      headB o

/-- `ViT.forward` (src lines 121-138): embedding stage, embedding dropout,
transformer stack, classification head. -/
def forward {B C P gh gw heads dh M K L : ℕ} (ops : ScalarOps)
    (eps scale pdrop pembdrop : ℚ) (m : ViTP C P gh gw heads dh M K L)
    (nz : ViTNoise B (gh * gw + 1) heads dh M L)
    (img : Fin B → Fin C → Fin (gh * P) → Fin (gw * P) → ℚ) :
    Fin B → Fin K → ℚ :=
  head ops eps m.headNorm m.headW m.headB
    (Transformer.forward ops eps scale pdrop m.blocks nz.blocks
      (dropout3 pembdrop nz.emb (embed m img)))

end ViT

/-- Modelled from the spec: the checkpoint interface (spec §6) produced by
the library `state_dict` used at src line 363 — a mapping from parameter
name to tensor holding exactly the learnable parameters (optimizer and
loss-scale state live outside the model and are excluded). -/
structure StateDict (C P gh gw heads dh M K L : ℕ) where
  convW : Fin (heads * dh) → Fin C → Fin P → Fin P → ℚ
  convB : Fin (heads * dh) → ℚ
  pos_embedding : Fin (gh * gw + 1) → Fin (heads * dh) → ℚ
  cls_token : Fin (heads * dh) → ℚ
  blocks : Fin L → BlockP heads dh M
  headNorm : LayerNormP (heads * dh)
  headW : Fin K → Fin (heads * dh) → ℚ
  headB : Fin K → ℚ

namespace ViT

/-- Modelled from the spec: `model.state_dict()` (library code, used at src
line 363) collects every learnable parameter tensor of the model. -/
def state_dict {C P gh gw heads dh M K L : ℕ} (m : ViTP C P gh gw heads dh M K L) :
    StateDict C P gh gw heads dh M K L :=
  ⟨m.convW, m.convB, m.pos_embedding, m.cls_token, m.blocks, m.headNorm, m.headW, m.headB⟩

/-- Modelled from the spec: `model.load_state_dict(sd)` (library code, used
at src line 367) overwrites every learnable parameter with the checkpoint's
tensor, keeping the receiver's non-parameter attributes. -/
def load_state_dict {C P gh gw heads dh M K L : ℕ}
    (m : ViTP C P gh gw heads dh M K L) (sd : StateDict C P gh gw heads dh M K L) :
    ViTP C P gh gw heads dh M K L :=
  ⟨m.patch_size, m.dim, sd.convW, sd.convB, sd.pos_embedding, sd.cls_token,
    sd.blocks, sd.headNorm, sd.headW, sd.headB⟩

end ViT

/-- A dropout mask family is admissible for probability `p`: Bernoulli(0)
draws never fire. -/
def maskOK {B T D : ℕ} (p : ℚ) (mask : Fin B → Fin T → Fin D → Bool) : Prop :=
  p = 0 → ∀ b t d, mask b t d = false

/-- Admissibility of a block's dropout draws. -/
def BlockNoise.OK {B T heads dh M : ℕ} (p : ℚ) (nz : BlockNoise B T heads dh M) : Prop :=
  maskOK p nz.attnOut ∧ maskOK p nz.ffMid ∧ maskOK p nz.ffOut

/-- Admissibility of a forward pass's dropout draws. -/
def ViTNoise.OK {B T heads dh M L : ℕ} (pdrop pembdrop : ℚ)
    (nz : ViTNoise B T heads dh M L) : Prop :=
  maskOK pembdrop nz.emb ∧ ∀ i, (nz.blocks i).OK pdrop

/-- A trivial scalar-ops instance used by concrete witnesses. -/
def unitOps : ScalarOps := ⟨fun _ => 1, fun z => z, fun _ => 1⟩

/-- A concrete one-of-everything model instance used by concrete
witnesses. -/
def unitViT : ViTP 1 1 1 1 1 1 1 1 1 :=
  ⟨1, 1, fun _ _ _ _ => 0, fun _ => 0, fun _ _ => 0, fun _ => 0,
    fun _ => ⟨⟨fun _ => 1, fun _ => 0⟩, ⟨fun _ _ => 0, fun _ _ => 0, fun _ => 0⟩,
      ⟨fun _ => 1, fun _ => 0⟩, ⟨fun _ _ => 0, fun _ => 0, fun _ _ => 0, fun _ => 0⟩⟩,
    ⟨fun _ => 1, fun _ => 0⟩, fun _ _ => 0, fun _ => 0⟩

/-- Dropout draws that never fire. -/
def silentNoise : ViTNoise 1 (1 * 1 + 1) 1 1 1 1 :=
  ⟨fun _ _ _ => false,
    fun _ => ⟨fun _ _ _ => false, fun _ _ _ => false, fun _ _ _ => false⟩⟩

/-! ## Theorems: constructor validation (C2) -/

/-- C2 counterexample: the claim says a fatal configuration error is raised at
construction when `embedding_dim` is not divisible by `heads`; but the source
performs no divisibility check (`Attention.__init__`, lines 56-59, has no
assert), so construction succeeds on `dim = 10`, `heads = 3`. -/
theorem initCheck_accepts_bad_heads :
    ViT.initCheck cfgHeadsBad = .ok () ∧ cfgHeadsBad.dim % cfgHeadsBad.heads ≠ 0 :=
  ⟨rfl, by decide⟩

/-- C2 (amended): for `patch_size > 0`, construction succeeds iff `image_size`
is divisible by `patch_size` and the attention-scale computation is well
defined — `depth = 0`, or the floor quotient `dim / heads` is positive
(`1 ≤ heads ≤ dim`).  The divisibility of `dim` by `heads` is never
checked: whether `heads ∣ dim` has no effect on construction. -/
theorem initCheck_ok_iff (cfg : ViTConfig) (hp : 0 < cfg.patch_size) :
    ViT.initCheck cfg = .ok () ↔
      cfg.image_size % cfg.patch_size = 0 ∧
        (cfg.depth = 0 ∨ 0 < cfg.dim / cfg.heads) := by
  have h0 : cfg.patch_size ≠ 0 := Nat.pos_iff_ne_zero.mp hp
  unfold ViT.initCheck
  rw [if_neg h0]
  by_cases hm : cfg.image_size % cfg.patch_size = 0
  · rw [if_pos hm]
    by_cases hd : 0 < cfg.depth ∧ cfg.dim / cfg.heads = 0
    · rw [if_pos hd]
      constructor
      · intro h
        exact Except.noConfusion h
      · rintro ⟨-, hdep | hq⟩
        · exact absurd hdep (Nat.pos_iff_ne_zero.mp hd.1)
        · rw [hd.2] at hq
          exact absurd hq (lt_irrefl 0)
    · rw [if_neg hd]
      constructor
      · intro _
        refine ⟨hm, ?_⟩
        rcases Nat.eq_zero_or_pos cfg.depth with hdep | hdep
        · exact Or.inl hdep
        · rcases Nat.eq_zero_or_pos (cfg.dim / cfg.heads) with hq | hq
          · exact absurd ⟨hdep, hq⟩ hd
          · exact Or.inr hq
      · intro _
        rfl
  · rw [if_neg hm]
    constructor
    · intro h
      exact Except.noConfusion h
    · rintro ⟨h, -⟩
      exact absurd h hm

/-- Witness for `initCheck_ok_iff` at the script's standard configuration. -/
theorem initCheck_ok_iff_witness :
    0 < stdCfg.patch_size ∧
      (ViT.initCheck stdCfg = .ok () ↔
        stdCfg.image_size % stdCfg.patch_size = 0 ∧
          (stdCfg.depth = 0 ∨ 0 < stdCfg.dim / stdCfg.heads)) :=
  ⟨by decide, initCheck_ok_iff stdCfg (by decide)⟩

/-! ## Theorems: attention scale (C7) -/

/-- C7: the attention scale of source line 59 equals `d ^ (-1/2)` for the
per-head dimension `d = dim / heads` (exact division, since `heads ∣ dim`
for any valid configuration), equivalently the inverse square root of `d`;
and at the script's configuration `dim = 512`, `heads = 8` the per-head
dimension is 64 and the scale is exactly `1/8 = 0.125`. -/
theorem attention_scale_spec (dim heads : ℕ) (hdvd : heads ∣ dim) (h0 : 0 < heads) :
    ((dim / heads : ℕ) : ℝ) = (dim : ℝ) / (heads : ℝ) ∧
    Attention.scale dim heads = (Real.sqrt ((dim / heads : ℕ) : ℝ))⁻¹ ∧
    (512 / 8 : ℕ) = 64 ∧ Attention.scale 512 8 = 1 / 8 := by
  have hb : ((heads : ℝ)) ≠ 0 := by
    exact_mod_cast h0.ne'
  have key : ∀ n : ℕ, Attention.scale n heads = (Real.sqrt ((n / heads : ℕ) : ℝ))⁻¹ := by
    intro n
    unfold Attention.scale
    rw [Real.rpow_neg (Nat.cast_nonneg _), ← Real.sqrt_eq_rpow]
  refine ⟨Nat.cast_div hdvd hb, key dim, by norm_num, ?_⟩
  have h512 : Attention.scale 512 8 = (Real.sqrt ((512 / 8 : ℕ) : ℝ))⁻¹ := by
    unfold Attention.scale
    rw [Real.rpow_neg (Nat.cast_nonneg _), ← Real.sqrt_eq_rpow]
  rw [h512, show ((512 / 8 : ℕ) : ℝ) = (8 : ℝ) ^ 2 by norm_num,
    Real.sqrt_sq (by norm_num : (0 : ℝ) ≤ 8)]
  norm_num

/-- Witness for `attention_scale_spec` at the script's configuration. -/
theorem attention_scale_spec_witness :
    (8 : ℕ) ∣ 512 ∧ 0 < 8 ∧
      (((512 / 8 : ℕ) : ℝ) = (512 : ℝ) / (8 : ℝ) ∧
       Attention.scale 512 8 = (Real.sqrt ((512 / 8 : ℕ) : ℝ))⁻¹ ∧
       (512 / 8 : ℕ) = 64 ∧ Attention.scale 512 8 = 1 / 8) :=
  ⟨by decide, by decide, attention_scale_spec 512 8 (by decide) (by decide)⟩

/-! ## Theorems: loss-scale dynamics (C1) -/

theorem runTraining_append {P : Type} (θ : ℕ) (upd : P → P) (s : P × ScalerState)
    (l : List Bool) (b : Bool) :
    runTraining θ upd s (l ++ [b]) = trainStep θ upd (runTraining θ upd s l) b := by
  simp [runTraining, List.foldl_append]

theorem scalerUpdate_scale_pos (θ : ℕ) (st : ScalerState) (b : Bool)
    (h : 0 < st.scale) : 0 < (scalerUpdate θ st b).scale := by
  cases b with
  | true => simpa [scalerUpdate] using by positivity
  | false =>
    by_cases hc : st.goodSteps + 1 = θ
    · simpa [scalerUpdate, hc] using by positivity
    · simpa [scalerUpdate, hc] using h

theorem runTraining_scale_pos {P : Type} (θ : ℕ) (upd : P → P) (s : P × ScalerState)
    (h : 0 < s.2.scale) (l : List Bool) :
    0 < (runTraining θ upd s l).2.scale := by
  induction l using List.reverseRecOn with
  | nil => exact h
  | append_singleton l b ih =>
    rw [runTraining_append]
    exact scalerUpdate_scale_pos θ _ b ih

/-- Starting from a reset counter, after any step sequence the counter is at
most the number of steps taken and the last `goodSteps` steps were all
non-overflowing. -/
theorem runTraining_goodSteps_suffix {P : Type} (θ : ℕ) (upd : P → P) (p : P) (sc : ℚ)
    (l : List Bool) :
    (runTraining θ upd (p, ⟨sc, 0⟩) l).2.goodSteps ≤ l.length ∧
    ∀ x ∈ l.drop (l.length - (runTraining θ upd (p, ⟨sc, 0⟩) l).2.goodSteps), x = false := by
  induction l using List.reverseRecOn with
  | nil => simp [runTraining]
  | append_singleton l b ih =>
    rw [runTraining_append]
    obtain ⟨ihle, ihall⟩ := ih
    cases b with
    | true => simp [trainStep, scalerUpdate]
    | false =>
      by_cases hc : (runTraining θ upd (p, ⟨sc, 0⟩) l).2.goodSteps + 1 = θ
      · simp [trainStep, scalerUpdate, hc]
      · refine ⟨?_, ?_⟩
        · simpa [trainStep, scalerUpdate, hc] using Nat.succ_le_succ ihle
        · intro x hx
          simp only [trainStep, scalerUpdate, hc, if_false, Bool.false_eq_true,
            List.length_append, List.length_singleton] at hx ⊢
          rw [show l.length + 1 -
                ((runTraining θ upd (p, ⟨sc, 0⟩) l).2.goodSteps + 1) =
                l.length - (runTraining θ upd (p, ⟨sc, 0⟩) l).2.goodSteps by omega,
            List.drop_append_eq_append_drop] at hx
          rcases List.mem_append.mp hx with h1 | h2
          · exact ihall x h1
          · have : x ∈ [false] := by
              have hle : l.length - (runTraining θ upd (p, ⟨sc, 0⟩) l).2.goodSteps ≤
                  l.length := Nat.sub_le _ _
              simpa [Nat.sub_eq_zero_of_le hle] using h2
            simpa using this

/-- C1: in the mixed-precision training loop, (i) a step whose unscaled
gradients contain a non-finite value leaves the parameters unchanged, halves
the loss-scale factor and resets the consecutive-success counter to 0, and
(ii) starting from a reset counter and a positive loss scale, the loss-scale
factor increases across a step only if that step did not overflow and the
`threshold` steps ending with it were all non-overflowing. -/
theorem lossScale_dynamics {P : Type} (θ : ℕ) (upd : P → P)
    (p0 : P) (sc0 : ℚ) (hsc : 0 < sc0) (l : List Bool) :
    (∀ s : P × ScalerState, trainStep θ upd s true = (s.1, ⟨s.2.scale / 2, 0⟩)) ∧
    (∀ b : Bool,
      (runTraining θ upd (p0, ⟨sc0, 0⟩) (l ++ [b])).2.scale >
        (runTraining θ upd (p0, ⟨sc0, 0⟩) l).2.scale →
      b = false ∧ θ ≤ (l ++ [b]).length ∧
        ∀ x ∈ (l ++ [b]).drop ((l ++ [b]).length - θ), x = false) := by
  constructor
  · intro s
    simp [trainStep, scalerUpdate]
  · intro b hgt
    rw [runTraining_append] at hgt
    have hpos : 0 < (runTraining θ upd (p0, ⟨sc0, 0⟩) l).2.scale :=
      runTraining_scale_pos θ upd _ hsc l
    obtain ⟨hle, hall⟩ := runTraining_goodSteps_suffix θ upd p0 sc0 l
    cases b with
    | true =>
      exfalso
      simp only [trainStep, scalerUpdate, if_true] at hgt
      linarith
    | false =>
      by_cases hc : (runTraining θ upd (p0, ⟨sc0, 0⟩) l).2.goodSteps + 1 = θ
      · refine ⟨rfl, ?_, ?_⟩
        · simp only [List.length_append, List.length_singleton]
          omega
        · intro x hx
          simp only [List.length_append, List.length_singleton] at hx
          rw [show l.length + 1 - θ =
                l.length - (runTraining θ upd (p0, ⟨sc0, 0⟩) l).2.goodSteps by omega,
            List.drop_append_eq_append_drop] at hx
          rcases List.mem_append.mp hx with h1 | h2
          · exact hall x h1
          · have hle2 : l.length - (runTraining θ upd (p0, ⟨sc0, 0⟩) l).2.goodSteps ≤
                l.length := Nat.sub_le _ _
            simpa [Nat.sub_eq_zero_of_le hle2] using h2
      · exfalso
        simp only [trainStep, scalerUpdate, hc, if_false, Bool.false_eq_true] at hgt
        exact lt_irrefl _ hgt

/-- Witness for `lossScale_dynamics`: threshold 2000, initial scale `2^16`,
empty step history. -/
theorem lossScale_dynamics_witness :
    (0 : ℚ) < 65536 ∧
    ((∀ s : ℕ × ScalerState, trainStep 2000 Nat.succ s true = (s.1, ⟨s.2.scale / 2, 0⟩)) ∧
     (∀ b : Bool,
       (runTraining 2000 Nat.succ ((0 : ℕ), ⟨(65536 : ℚ), 0⟩) ([] ++ [b])).2.scale >
         (runTraining 2000 Nat.succ ((0 : ℕ), ⟨(65536 : ℚ), 0⟩) []).2.scale →
       b = false ∧ 2000 ≤ (([] : List Bool) ++ [b]).length ∧
         ∀ x ∈ (([] : List Bool) ++ [b]).drop ((([] : List Bool) ++ [b]).length - 2000),
           x = false)) :=
  ⟨by norm_num,
    lossScale_dynamics 2000 Nat.succ 0 65536 (by norm_num) []⟩

/-! ## Theorems: script execution order (C3) -/

/-- C3: executing the script top to bottom, the first training step of the
from-scratch section raises `NameError "scaler"` (the global `scaler` is
bound only later, at source line 265, in the fine-tuning section), and no
parameter update or metric accumulation of the from-scratch section ever
completes. -/
theorem script_first_training_step_nameError :
    (execScript ⟨[], 0, 0⟩ vitScript).1 = some (.nameError "scaler") ∧
    (execScript ⟨[], 0, 0⟩ vitScript).2.parameterUpdates = 0 ∧
    (execScript ⟨[], 0, 0⟩ vitScript).2.metricAccumulations = 0 :=
  ⟨rfl, rfl, rfl⟩

/-! ## Theorems: patch-embedding output shape (C6) -/

theorem div_sub_self_add_one (p X : ℕ) (hp : 0 < p) (hX : p ∣ X) (hX0 : 0 < X) :
    (X - p) / p + 1 = X / p := by
  obtain ⟨m, rfl⟩ := hX
  rcases m with _ | m
  · simp at hX0
  · rw [Nat.mul_succ, Nat.add_sub_cancel, Nat.add_div_right _ hp,
      Nat.mul_div_cancel_left _ hp]

/-- C6: for any configuration with positive patch size and any input batch
`[B, C, H, W]` with matching channel count and `H`, `W` divisible by the
patch size, the patch-embedding stage outputs exactly
`[B, (H/P) * (W/P), dim]` (class token not yet included). -/
theorem patchEmb_output_shape (cfg : ViTConfig) (B H W : ℕ)
    (hp : 0 < cfg.patch_size) (hH : cfg.patch_size ∣ H) (hW : cfg.patch_size ∣ W)
    (hH0 : 0 < H) (hW0 : 0 < W) :
    patchEmbShape cfg.channels cfg.dim cfg.patch_size [B, cfg.channels, H, W] =
      some [B, H / cfg.patch_size * (W / cfg.patch_size), cfg.dim] := by
  have hpH : cfg.patch_size ≤ H := Nat.le_of_dvd hH0 hH
  have hpW : cfg.patch_size ≤ W := Nat.le_of_dvd hW0 hW
  simp only [patchEmbShape, conv2dShape]
  rw [if_pos ⟨hp, hp, trivial, hpH, hpW⟩]
  simp [flatten2Shape, transpose12Shape, Option.bind,
    div_sub_self_add_one cfg.patch_size H hp hH hH0,
    div_sub_self_add_one cfg.patch_size W hp hW hW0]

/-- Witness for `patchEmb_output_shape`: a batch of two 3x32x32 images under
the standard configuration yields `[2, 64, 512]`. -/
theorem patchEmb_output_shape_witness :
    0 < stdCfg.patch_size ∧ stdCfg.patch_size ∣ 32 ∧ 0 < 32 ∧
      patchEmbShape stdCfg.channels stdCfg.dim stdCfg.patch_size
          [2, stdCfg.channels, 32, 32] =
        some [2, 32 / stdCfg.patch_size * (32 / stdCfg.patch_size), stdCfg.dim] :=
  ⟨by decide, by decide, by decide,
    patchEmb_output_shape stdCfg 2 32 32 (by decide) (by decide) (by decide)
      (by decide) (by decide)⟩

/-! ## Theorems: forward pass succeeds exactly on matching patch counts (C10) -/

/-- C10 counterexample: the claim says the forward pass succeeds only on
inputs whose spatial size equals the configured `image_size`; but under the
standard configuration (`image_size = 32`, `patch_size = 4`) an input of
spatial size 16x64 also has `4 * 16 = 64` patches, so the positional
embedding broadcast succeeds and the whole forward pass returns `[1, 10]`
logits. -/
theorem vitForward_succeeds_offsize :
    vitForwardShape stdCfg [1, 3, 16, 64] = some [1, 10] ∧
      ¬(16 = stdCfg.image_size ∧ 64 = stdCfg.image_size) :=
  ⟨by decide, by decide⟩

/-- C10 (amended): whenever the forward pass succeeds, the patch-embedding
stage produced exactly `numPatches cfg` tokens — the positional-embedding
in-place add fails on any other patch count — so the token sequence after
prepending the class token has length exactly `numPatches cfg + 1`. -/
theorem vitForward_success_token_count (cfg : ViTConfig) (hN : 0 < numPatches cfg)
    (B C H W : ℕ) (out : Shape)
    (hs : vitForwardShape cfg [B, C, H, W] = some out) :
    patchEmbShape cfg.channels cfg.dim cfg.patch_size [B, C, H, W] =
      some [B, numPatches cfg, cfg.dim] ∧
    catClsShape cfg.dim [B, numPatches cfg, cfg.dim] =
      some [B, numPatches cfg + 1, cfg.dim] := by
  unfold vitForwardShape at hs
  rw [Option.bind_eq_some] at hs
  obtain ⟨t1, h1, hs⟩ := hs
  rw [Option.bind_eq_some] at hs
  obtain ⟨t2, h2, hs⟩ := hs
  rw [Option.bind_eq_some] at hs
  obtain ⟨t3, h3, -⟩ := hs
  simp only [patchEmbShape, conv2dShape] at h1
  split at h1 <;> rename_i hc
  · simp only [flatten2Shape, transpose12Shape, Option.bind, List.prod_cons,
      List.prod_nil, mul_one, Option.some.injEq] at h1
    subst h1
    simp [catClsShape] at h2
    subst h2
    simp only [addPosShape] at h3
    split at h3 <;> rename_i hcond
    · have hn : ((H - cfg.patch_size) / cfg.patch_size + 1) *
          ((W - cfg.patch_size) / cfg.patch_size + 1) = numPatches cfg := by
        rcases hcond.1 with h | h
        · exact (Nat.add_right_cancel h).symm
        · exact absurd h (by omega)
      refine ⟨?_, by simp [catClsShape]⟩
      simp only [patchEmbShape, conv2dShape]
      rw [if_pos hc]
      simp only [flatten2Shape, transpose12Shape, Option.bind, List.prod_cons,
        List.prod_nil, mul_one, hn]
    · exact absurd h3 (by simp)
  · exact absurd h1 (by simp)

/-- Witness for `vitForward_success_token_count`: the standard configuration
on a 2x3x32x32 batch. -/
theorem vitForward_success_token_count_witness :
    0 < numPatches stdCfg ∧
      (patchEmbShape stdCfg.channels stdCfg.dim stdCfg.patch_size [2, 3, 32, 32] =
          some [2, numPatches stdCfg, stdCfg.dim] ∧
        catClsShape stdCfg.dim [2, numPatches stdCfg, stdCfg.dim] =
          some [2, numPatches stdCfg + 1, stdCfg.dim]) :=
  ⟨by decide,
    vitForward_success_token_count stdCfg (by decide) 2 3 32 32 [2, 10] (by decide)⟩

/-! ## Theorems: pre-norm residual composition (C4) -/

/-- C4: each transformer block applies the pre-norm residual composition:
its output is `x1 + FeedForward(LayerNorm(x1))` for
`x1 = x + SelfAttention(LayerNorm(x))`, with layer normalization applied to
each sub-layer's input (never its output) and using the block's own
LayerNorm parameters (`bp.attnNorm` and `bp.ffNorm` are fields of the
block); the type of `blockForward` gives shape preservation for every
`[B, T, D]` input. -/
theorem block_preNorm_residual {B T heads dh M : ℕ} (ops : ScalarOps)
    (eps scale pdrop : ℚ) (bp : BlockP heads dh M)
    (nz : BlockNoise B T heads dh M) (x : Tensor3 B T (heads * dh)) :
    blockForward ops eps scale pdrop bp nz x =
      (x + Attention.forward ops.exp scale pdrop nz.attnOut bp.attn
          (layerNorm3 ops eps bp.attnNorm x)) +
        FeedForward.forward ops.gelu pdrop nz.ffMid nz.ffOut bp.ff
          (layerNorm3 ops eps bp.ffNorm
            (x + Attention.forward ops.exp scale pdrop nz.attnOut bp.attn
                (layerNorm3 ops eps bp.attnNorm x))) := by
  unfold blockForward
  rw [add_comm (Attention.forward ops.exp scale pdrop nz.attnOut bp.attn
    (layerNorm3 ops eps bp.attnNorm x)) x]
  exact add_comm _ _

/-! ## Theorems: attention rows are probability distributions (C5) -/

/-- C5: for every `(batch, head, query)` triple, the attention-probability
row produced by the softmax over the key axis is a probability
distribution — every entry is non-negative and the row sums to 1 — for any
positive runtime exponential (as the true `exp` is). -/
theorem attnProbs_distribution {B T heads dh : ℕ} (e : ℚ → ℚ)
    (he : ∀ z, 0 < e z) (scale : ℚ) (p : AttentionP heads dh)
    (x : Tensor3 B T (heads * dh)) (b : Fin B) (h : Fin heads) (i : Fin T) :
    (∀ j, 0 ≤ Attention.attnProbs e scale p x b h i j) ∧
      ∑ j, Attention.attnProbs e scale p x b h i j = 1 := by
  have hpos : 0 < ∑ kk, e (Attention.dots scale p x b h i kk) :=
    Finset.sum_pos (fun kk _ => he _) ⟨i, Finset.mem_univ i⟩
  unfold Attention.attnProbs softmaxRow
  constructor
  · intro j
    exact div_nonneg (he _).le hpos.le
  · rw [← Finset.sum_div]
    exact div_self hpos.ne'

/-- Witness for `attnProbs_distribution`: a single-token, single-head
instance with the constant-1 exponential. -/
theorem attnProbs_distribution_witness :
    (∀ z : ℚ, 0 < (fun _ : ℚ => (1 : ℚ)) z) ∧
      ((∀ j, 0 ≤ Attention.attnProbs (fun _ : ℚ => (1 : ℚ)) 1
          (⟨fun _ _ => 0, fun _ _ => 0, fun _ => 0⟩ : AttentionP 1 1)
          (fun _ _ _ => 0 : Tensor3 1 1 (1 * 1)) 0 0 0 j) ∧
        ∑ j, Attention.attnProbs (fun _ : ℚ => (1 : ℚ)) 1
          (⟨fun _ _ => 0, fun _ _ => 0, fun _ => 0⟩ : AttentionP 1 1)
          (fun _ _ _ => 0 : Tensor3 1 1 (1 * 1)) 0 0 0 j = 1) :=
  ⟨fun _ => one_pos,
    attnProbs_distribution (fun _ : ℚ => (1 : ℚ)) (fun _ => one_pos) 1
      (⟨fun _ _ => 0, fun _ _ => 0, fun _ => 0⟩ : AttentionP 1 1)
      (fun _ _ _ => 0 : Tensor3 1 1 (1 * 1)) 0 0 0⟩

/-! ## Theorems: determinism at zero dropout (C9) -/

theorem dropout3_zero {B T D : ℕ} (mask : Fin B → Fin T → Fin D → Bool)
    (h : ∀ b t d, mask b t d = false) (x : Tensor3 B T D) :
    dropout3 0 mask x = x := by
  funext b t d
  simp [dropout3, h]

theorem attention_forward_mask_irrel {B T heads dh : ℕ} (e : ℚ → ℚ) (scale : ℚ)
    (u1 u2 : Fin B → Fin T → Fin (heads * dh) → Bool)
    (hu1 : ∀ b t d, u1 b t d = false) (hu2 : ∀ b t d, u2 b t d = false)
    (p : AttentionP heads dh) (x : Tensor3 B T (heads * dh)) :
    Attention.forward e scale 0 u1 p x = Attention.forward e scale 0 u2 p x := by
  unfold Attention.forward
  rw [dropout3_zero u1 hu1, dropout3_zero u2 hu2]

theorem feedForward_mask_irrel {B T D M : ℕ} (g : ℚ → ℚ)
    (u1 u2 : Fin B → Fin T → Fin M → Bool) (w1 w2 : Fin B → Fin T → Fin D → Bool)
    (hu1 : ∀ b t d, u1 b t d = false) (hu2 : ∀ b t d, u2 b t d = false)
    (hw1 : ∀ b t d, w1 b t d = false) (hw2 : ∀ b t d, w2 b t d = false)
    (p : FeedForwardP D M) (x : Tensor3 B T D) :
    FeedForward.forward g 0 u1 w1 p x = FeedForward.forward g 0 u2 w2 p x := by
  unfold FeedForward.forward
  rw [dropout3_zero u1 hu1, dropout3_zero u2 hu2,
    dropout3_zero w1 hw1, dropout3_zero w2 hw2]

theorem blockForward_noise_irrel {B T heads dh M : ℕ} (ops : ScalarOps)
    (eps scale : ℚ) (bp : BlockP heads dh M)
    (n1 n2 : BlockNoise B T heads dh M) (h1 : n1.OK 0) (h2 : n2.OK 0)
    (x : Tensor3 B T (heads * dh)) :
    blockForward ops eps scale 0 bp n1 x = blockForward ops eps scale 0 bp n2 x := by
  unfold blockForward
  rw [attention_forward_mask_irrel ops.exp scale n1.attnOut n2.attnOut
      (h1.1 rfl) (h2.1 rfl) bp.attn,
    feedForward_mask_irrel ops.gelu n1.ffMid n2.ffMid n1.ffOut n2.ffOut
      (h1.2.1 rfl) (h2.2.1 rfl) (h1.2.2 rfl) (h2.2.2 rfl) bp.ff]

theorem Transformer.forward_noise_irrel {B T heads dh M L : ℕ} (ops : ScalarOps)
    (eps scale : ℚ) (layers : Fin L → BlockP heads dh M)
    (n1 n2 : Fin L → BlockNoise B T heads dh M)
    (h1 : ∀ i, (n1 i).OK 0) (h2 : ∀ i, (n2 i).OK 0)
    (x : Tensor3 B T (heads * dh)) :
    Transformer.forward ops eps scale 0 layers n1 x =
      Transformer.forward ops eps scale 0 layers n2 x := by
  unfold Transformer.forward
  refine List.foldl_ext _ _ x ?_
  intro acc i _
  exact blockForward_noise_irrel ops eps scale (layers i) (n1 i) (n2 i)
    (h1 i) (h2 i) acc

/-- C9: with every dropout probability equal to 0 and fixed weights, two
forward passes on the same input — that is, under any two admissible
dropout draws — produce identical outputs. -/
theorem vit_forward_deterministic {B C P gh gw heads dh M K L : ℕ}
    (ops : ScalarOps) (eps scale pdrop pembdrop : ℚ)
    (hp : pdrop = 0) (hpe : pembdrop = 0)
    (m : ViTP C P gh gw heads dh M K L)
    (n1 n2 : ViTNoise B (gh * gw + 1) heads dh M L)
    (h1 : n1.OK pdrop pembdrop) (h2 : n2.OK pdrop pembdrop)
    (img : Fin B → Fin C → Fin (gh * P) → Fin (gw * P) → ℚ) :
    ViT.forward ops eps scale pdrop pembdrop m n1 img =
      ViT.forward ops eps scale pdrop pembdrop m n2 img := by
  subst hp hpe
  unfold ViT.forward
  rw [dropout3_zero n1.emb (h1.1 rfl), dropout3_zero n2.emb (h2.1 rfl),
    Transformer.forward_noise_irrel ops eps scale m.blocks n1.blocks n2.blocks
      h1.2 h2.2]

theorem silentNoise_OK : silentNoise.OK 0 0 :=
  ⟨fun _ _ _ _ => rfl, fun _ => ⟨fun _ _ _ _ => rfl, fun _ _ _ _ => rfl, fun _ _ _ _ => rfl⟩⟩

/-- Witness for `vit_forward_deterministic` at the concrete unit model. -/
theorem vit_forward_deterministic_witness :
    (0 : ℚ) = 0 ∧ silentNoise.OK 0 0 ∧
      ViT.forward unitOps 0 1 0 0 unitViT silentNoise (fun _ _ _ _ => 0) =
        ViT.forward unitOps 0 1 0 0 unitViT silentNoise (fun _ _ _ _ => 0) :=
  ⟨rfl, silentNoise_OK,
    vit_forward_deterministic unitOps 0 1 0 0 rfl rfl unitViT silentNoise
      silentNoise silentNoise_OK silentNoise_OK (fun _ _ _ _ => 0)⟩

/-! ## Theorems: checkpoint round trip (C8) -/

/-- C8: saving the parameter mapping of a model and loading it into a
freshly constructed model of identical configuration reproduces identical
forward-pass outputs for every input (and every dropout draw); the state
dict holds only the model's parameters — optimizer and loss-scale state
are separate values of other types and are not part of `StateDict`. -/
theorem state_dict_roundtrip {B C P gh gw heads dh M K L : ℕ} (ops : ScalarOps)
    (eps scale pdrop pembdrop : ℚ) (m fresh : ViTP C P gh gw heads dh M K L)
    (nz : ViTNoise B (gh * gw + 1) heads dh M L)
    (img : Fin B → Fin C → Fin (gh * P) → Fin (gw * P) → ℚ) :
    ViT.forward ops eps scale pdrop pembdrop
        (ViT.load_state_dict fresh (ViT.state_dict m)) nz img =
      ViT.forward ops eps scale pdrop pembdrop m nz img := rfl
